import Mathlib

/-!
Verification development for the food-label backend service.

The embedding covers:
- the session manager (src/unnamed/part_001): `storeAnalysis`, `getAnalysis`,
  `hasSession` over a session store; the expiry semantics of the external
  node-cache instance (stdTTL 15 minutes, fixed from creation) are modelled
  from the spec since the library is not part of src/;
- the AI gateway (src/unnamed/part_000): `analyzeImage` including the
  code-fence stripping and the isError and error flag classification;
- the HTTP handlers of src/server.js: POST /api/analyze, POST /api/chat with
  the validateSession middleware, and POST /api/tts;
- the speech gateway actually imported by server.js (src/ttsService.js
  `generateSpeech`), and, for contrast, the pre-call validation found in the
  unused `generateSpeech` of src/unnamed/part_000.

External collaborators (the OpenAI chat, summary, follow-up and speech calls,
and the JSON.parse builtin) are passed in as explicit parameters: a parse
function `String -> Option JsonVal`, an `Except`-valued call outcome, and
gateway result values, so every handler is a pure function of its request,
the store state and the external outcomes.
-/

/-- JsonVal models a value produced by the JavaScript JSON.parse builtin.
Numbers are modelled as integers; no claim in this development depends on
fractional numeric values (only on truthiness and decimal rendering of
integral values such as calorie counts). -/
inductive JsonVal where
  | null : JsonVal
  | bool (b : Bool) : JsonVal
  | num (n : Int) : JsonVal
  | str (s : String) : JsonVal
  | arr (elems : List JsonVal) : JsonVal
  | obj (fields : List (String × JsonVal)) : JsonVal

/-- JavaScript truthiness of a JSON value: false, 0, the empty string and
null are falsy; arrays and objects are always truthy. -/
def jsTruthy : JsonVal → Bool
  | .null => false
  | .bool b => b
  | .num n => n != 0
  | .str s => s != ""
  | .arr _ => true
  | .obj _ => true

/-- Truthiness of a possibly-undefined value (`none` stands for the
JavaScript undefined, which is falsy). -/
def jsTruthyOpt : Option JsonVal → Bool
  | none => false
  | some v => jsTruthy v

/-- Property access `v[key]` in JavaScript: accessing a property of null
throws a TypeError (outer `none`); accessing a missing property of any other
value yields undefined (`some none`); an object field lookup yields the field
value (`some (some w)`). -/
def jsGetField : JsonVal → String → Option (Option JsonVal)
  | .null, _ => none
  | .obj fields, key => some (fields.lookup key)
  | _, _ => some none

mutual

/-- String coercion of a JSON value as JavaScript performs it in template
literals: `String(null) = "null"`, booleans print as true or false, arrays
join their elements with commas, plain objects print as [object Object]. -/
def jsToString : JsonVal → String
  | .null => "null"
  | .bool b => if b then "true" else "false"
  | .num n => toString n
  | .str s => s
  | .obj _ => "[object Object]"
  | .arr xs => jsJoin "," xs

/-- Array.prototype.join with the given separator: null elements render as
the empty string, every other element is string-coerced. -/
def jsJoin (sep : String) : List JsonVal → String
  | [] => ""
  | [v] => jsJoinElem v
  | v :: rest => jsJoinElem v ++ sep ++ jsJoin sep rest

/-- Rendering of a single Array.prototype.join element: null and undefined
become the empty string, the rest follows String coercion. -/
def jsJoinElem : JsonVal → String
  | .null => ""
  | .bool b => if b then "true" else "false"
  | .num n => toString n
  | .str s => s
  | .obj _ => "[object Object]"
  | .arr xs => jsJoin "," xs

end

/-- String prefix test, as the JavaScript String.prototype.startsWith used at
src/unnamed/part_000 lines 76 and 137-139. -/
def sStartsWith (s p : String) : Bool := p.data.isPrefixOf s.data

/-- String suffix test, used to model the anchored `\n` fence suffix of the
replace regex at src/unnamed/part_000 lines 137-140. -/
def sEndsWith (s p : String) : Bool := p.data.isSuffixOf s.data

/-- Removal of a literal prefix when present, one anchored alternative of the
global replace regexes at src/unnamed/part_000 lines 138 and 140. -/
def dropPre (p s : String) : String :=
  if sStartsWith s p then String.mk (s.data.drop p.data.length) else s

/-- Removal of a literal suffix when present, the other anchored alternative
of the global replace regexes at src/unnamed/part_000 lines 138 and 140. -/
def dropSuf (p s : String) : String :=
  if sEndsWith s p then String.mk (s.data.take (s.data.length - p.data.length)) else s

/-- Characters treated as whitespace by JavaScript String.prototype.trim. -/
def jsWhitespace (c : Char) : Bool :=
  c.toNat ∈ [9, 10, 11, 12, 13, 32, 160, 5760, 8192, 8193, 8194, 8195, 8196,
    8197, 8198, 8199, 8200, 8201, 8202, 8232, 8233, 8239, 8287, 12288, 65279]

/-- JavaScript String.prototype.trim. -/
def jsTrim (s : String) : String :=
  String.mk (((s.data.dropWhile jsWhitespace).reverse.dropWhile jsWhitespace).reverse)

/-- Code-fence stripping of src/unnamed/part_000 lines 136-141: when the model
reply starts with a fence marker, the anchored fence prefix and suffix are
removed and the result trimmed; otherwise the reply is left untouched. -/
def stripFences (content : String) : String :=
  if sStartsWith content "```json" then
    jsTrim (dropSuf "\n```" (dropPre "```json\n" content))
  else if sStartsWith content "```" then
    jsTrim (dropSuf "\n```" (dropPre "```\n" content))
  else content

/-- Record stored for one session by storeAnalysis (src/unnamed/part_001
lines 11-16): the analysis payload together with the creation timestamp in
milliseconds. -/
structure SessionRecord where
  analysis : JsonVal
  timestamp : Nat

/-- Modelled from the spec: the session store state of the node-cache
instance of src/unnamed/part_001 lines 3-8. The library itself is not under
src/, so its expiry behaviour is taken from the spec: every record carries
the fixed expiry instant computed at creation (TTL 15 minutes from creation,
not sliding), and an expired record is never returned by a read. The
periodic sweep only evicts already-expired entries, so it is observationally
irrelevant to get and has. Newer entries are consed in front; lookup takes
the first match, which makes a later set of the same key shadow the older
record exactly as the cache overwrite does. -/
structure SessionStore where
  entries : List (String × SessionRecord × Nat)

/-- Session store with no entries. -/
def emptyStore : SessionStore := ⟨[]⟩

/-- TTL of the session cache in milliseconds: stdTTL is 15 * 60 seconds
(src/unnamed/part_001 line 5). -/
def sessionTTLms : Nat := 15 * 60 * 1000

/-- storeAnalysis (src/unnamed/part_001 lines 11-16): stores the analysis
together with `timestamp: Date.now()` under the given session id; the expiry
instant is fixed at creation time plus the TTL. -/
def storeAnalysis (store : SessionStore) (now : Nat) (sessionId : String)
    (analysis : JsonVal) : SessionStore :=
  ⟨(sessionId, ⟨analysis, now⟩, now + sessionTTLms) :: store.entries⟩

/-- getAnalysis (src/unnamed/part_001 lines 19-21): returns the stored record
if the id is present and not expired, and nothing otherwise. Reading takes
the current time as an explicit argument and returns no updated store: a read
never extends the expiry. -/
def getAnalysis (store : SessionStore) (now : Nat) (sessionId : String) :
    Option SessionRecord :=
  match store.entries.lookup sessionId with
  | none => none
  | some (r, expiresAt) => if now ≤ expiresAt then some r else none

/-- hasSession (src/unnamed/part_001 lines 24-26). -/
def hasSession (store : SessionStore) (now : Nat) (sessionId : String) : Bool :=
  (getAnalysis store now sessionId).isSome

/-- Store produced by a sequence of create operations, each entry giving the
session id, payload and creation time, starting from the empty store. -/
def runCreates : List (String × JsonVal × Nat) → SessionStore
  | [] => emptyStore
  | (sid, a, t) :: rest => storeAnalysis (runCreates rest) t sid a

/-- Message part of one chat-completion choice of the external model reply. -/
structure ModelMsg where
  content : Option String

/-- One choice of the external model reply; `message` may be missing. -/
structure ModelChoice where
  message : Option ModelMsg

/-- Shape of the external chat-completion reply checked by analyzeImage at
src/unnamed/part_000 lines 121-130. -/
structure ModelResponse where
  choices : List ModelChoice

/-- Result of analyzeImage (src/unnamed/part_000): either a parsed analysis
(`{success: true, analysis}`) or a failure `{success: false, error, details}`.
The error field carries a JSON value because a semantic failure forwards
`analysis.error` verbatim. -/
inductive AnalyzeResult where
  | ok (analysis : JsonVal) : AnalyzeResult
  | err (error : JsonVal) (details : String) : AnalyzeResult

/-- Success flag of an analyzeImage result. -/
def AnalyzeResult.success : AnalyzeResult → Bool
  | .ok _ => true
  | .err _ _ => false

/-- analyzeImage (src/unnamed/part_000 lines 66-186). Parameters: `parse` is
the JSON.parse builtin (none = parse throws), `call` the outcome of the
outbound chat-completion call (error = the promise rejected, carrying the
error message), then the base64 image data and the MIME type. Every throw
inside the function is caught at lines 162-183 and converted into
`{success:false, error: "Failed to analyze image", details}`; the exact
JavaScript runtime text of parse and property-access TypeErrors is
abbreviated to a fixed details string, which no claim inspects. Accessing
`analysis.isError` on a parsed null throws, which lands in the same catch:
this is the wildcard arm of the inner match, since jsGetField is `none`
exactly on null receivers. -/
def analyzeImage (parse : String → Option JsonVal)
    (call : Except String ModelResponse)
    (imageBase64 mimeType : String) : AnalyzeResult :=
  if imageBase64 = "" then
    .err (.str "Failed to analyze image")
      "Invalid image data: base64 string is empty or not a string"
  else if sStartsWith mimeType "image/" = false then
    .err (.str "Failed to analyze image") ("Invalid MIME type: " ++ mimeType)
  else
    match call with
    | .error m => .err (.str "Failed to analyze image") m
    | .ok resp =>
      match resp.choices.head? with
      | none => .err (.str "Failed to analyze image") "No choices in API response"
      | some choice =>
        match choice.message with
        | none =>
          .err (.str "Failed to analyze image") "Invalid message format in API response"
        | some msg =>
          match msg.content with
          | none =>
            .err (.str "Failed to analyze image") "Invalid message format in API response"
          | some content =>
            if content = "" then
              .err (.str "Failed to analyze image") "Invalid message format in API response"
            else
              match parse (stripFences content) with
              | none =>
                .err (.str "Failed to analyze image") "Failed to parse API response"
              | some analysis =>
                match jsGetField analysis "isError", jsGetField analysis "error" with
                | some ie, some er =>
                  if jsTruthyOpt ie || jsTruthyOpt er then
                    .err (match er with
                          | some w => if jsTruthy w then w else .str "Failed to analyze the food label"
                          | none => .str "Failed to analyze the food label")
                      "The model could not process the image as a food label"
                  else .ok analysis
                | _, _ =>
                  .err (.str "Failed to analyze image") "Failed to parse API response"

/-- Uploaded file as the /api/analyze handler sees it after multer: the
buffer already converted to base64 (src/server.js line 75) and the MIME
type. -/
structure UploadedFile where
  imageBase64 : String
  mimetype : String

/-- Outcome of the external generateSummary call (src/unnamed/part_000 lines
188-214): that function catches every error itself, so the handler only ever
sees `{success, summary?}`; the error string of a failed outcome is used for
logging only. -/
structure SummaryResult where
  success : Bool
  summary : Option String

/-- Truthiness of the summary field: undefined and the empty string are
falsy, matching the `summaryResult.success && summaryResult.summary` check at
src/server.js line 98. -/
def jsTruthyStr : Option String → Bool
  | none => false
  | some s => s != ""

/-- Optional-chaining call `ingredients?.join(sep)` of src/server.js line
104: undefined and null short-circuit to undefined (`some none`), an array
joins (`some (some s)`), and any other truthy value has no join method, so
the call throws a TypeError (outer `none`). -/
def jsOptJoin (sep : String) (v : Option JsonVal) : Option (Option String) :=
  match v with
  | none => some none
  | some .null => some none
  | some (.arr xs) => some (some (jsJoin sep xs))
  | some _ => none

/-- Local fallback summary of src/server.js lines 103-109, built when the
summarize call fails: product name (or "This product"), the joined
ingredient list (or "various ingredients"), and the calorie count when
truthy. The result is `none` when the construction throws, that is when the
ingredients field holds a truthy non-array (its join is not a function) or,
unreachably here, when the analysis is null. The throw is caught at line
111-114 by the handler. -/
def buildFallback (analysis : JsonVal) : Option String :=
  match jsGetField analysis "productName", jsGetField analysis "ingredients",
        jsGetField analysis "nutritionFacts" with
  | some pn, some ingF, some nfF =>
    let product : String :=
      match pn with
      | some v => if jsTruthy v then jsToString v else "This product"
      | none => "This product"
    (match jsOptJoin ", " ingF with
     | none => none
     | some joined =>
       let ingredients : String :=
         match joined with
         | some j => if j = "" then "various ingredients" else j
         | none => "various ingredients"
       let calories : Option JsonVal :=
         match nfF with
         | some .null => none
         | some w => (jsGetField w "calories").getD none
         | none => none
       let base := product ++ " contains " ++ ingredients ++ ". "
       some (match calories with
             | some c =>
               if jsTruthy c then
                 base ++ "It has approximately " ++ jsToString c ++ " calories per serving."
               else base
             | none => base))
  | _, _, _ => none

/-- JSON body sent back by POST /api/analyze, together with the HTTP status;
absent fields are `none`. -/
structure AnalyzeHttpResponse where
  status : Nat
  success : Bool
  error : Option JsonVal := none
  details : Option String := none
  sessionId : Option String := none
  summary : Option String := none
  hasAnalysis : Option Bool := none
  analysis : Option JsonVal := none

/-- POST /api/analyze handler (src/server.js lines 65-142). Parameters:
`parse` and `call` feed analyzeImage; `newId` is the uuid produced by
generateSessionId; `sr` the outcome of the external generateSummary call;
`now` the Date.now() instant of the request; `file` the multer upload, none
when missing or rejected. Returns the HTTP response and the session store
after the request. The summary logic mirrors lines 95-114: the gateway
summary is used when the call succeeded with a truthy summary; otherwise the
local fallback is synthesized, and if that construction throws the catch at
lines 111-114 substitutes the generic completion message. -/
def apiAnalyze (parse : String → Option JsonVal)
    (call : Except String ModelResponse) (newId : String) (sr : SummaryResult)
    (now : Nat) (file : Option UploadedFile) (store : SessionStore) :
    AnalyzeHttpResponse × SessionStore :=
  match file with
  | none =>
    ({ status := 400, success := false,
       error := some (.str "No file uploaded or unsupported file type") }, store)
  | some f =>
    match analyzeImage parse call f.imageBase64 f.mimetype with
    | .err e d =>
      ({ status := 500, success := false, error := some e, details := some d }, store)
    | .ok analysis =>
      let store2 := storeAnalysis store now newId analysis
      let summary : String :=
        if sr.success && jsTruthyStr sr.summary then sr.summary.getD ""
        else
          match buildFallback analysis with
          | some s => s
          | none => "Analysis complete. Ask me anything about this product."
      ({ status := 200, success := true, sessionId := some newId,
         summary := some summary, hasAnalysis := some true,
         analysis := some analysis }, store2)

/-- Observable internal steps of one POST /api/chat request: the session
lookup and the single gateway call it dispatches to. -/
inductive ChatEffect where
  | lookup (sessionId : String) : ChatEffect
  | callFollowUp (analysis : JsonVal) (question : JsonVal) : ChatEffect
  | callSummary (analysis : JsonVal) : ChatEffect

/-- JSON body sent back by POST /api/chat together with the HTTP status;
absent fields are `none`. -/
structure ChatHttpResponse where
  status : Nat
  success : Bool
  response : Option String := none
  isFollowUp : Option Bool := none
  error : Option String := none
  details : Option String := none

/-- Outcome of an external conversation-gateway call (generateSummary or
handleFollowUp of src/unnamed/part_000): both catch their own errors and
return `{success:true, text}` or `{success:false, error}`. -/
inductive GatewayResult where
  | ok (text : String) : GatewayResult
  | fail (error : String) : GatewayResult

/-- POST /api/chat handler composed with the validateSession middleware
(src/server.js lines 50-62 and 145-200). `header` is the raw X-Session-ID
header (none when absent; the middleware also rejects an empty value, which
is falsy). `message` and `isFollowUp` are the raw JSON body fields, absent
fields being none; isFollowUp defaults to false by destructuring. `fu` and
`su` are the outcomes the external handleFollowUp and generateSummary calls
would produce. Returns the response and the list of effects the request
performed, in order. A failed gateway call is thrown at lines 167 and 180 and
caught at lines 192-199 as a 500. -/
def apiChat (store : SessionStore) (now : Nat) (header : Option String)
    (message : Option JsonVal) (isFollowUp : Option JsonVal)
    (fu su : GatewayResult) : ChatHttpResponse × List ChatEffect :=
  match header with
  | none =>
    ({ status := 400, success := false,
       error := some "Session ID is required in X-Session-ID header" }, [])
  | some sid =>
    if sid = "" then
      ({ status := 400, success := false,
         error := some "Session ID is required in X-Session-ID header" }, [])
    else
      match getAnalysis store now sid with
      | none =>
        ({ status := 404, success := false,
           error := some "Session not found or expired. Please scan the product again." },
         [.lookup sid])
      | some r =>
        if jsTruthy (isFollowUp.getD (.bool false)) && jsTruthyOpt message then
          let q := message.getD .null
          match fu with
          | .ok t =>
            ({ status := 200, success := true, response := some t,
               isFollowUp := some true }, [.lookup sid, .callFollowUp r.analysis q])
          | .fail e =>
            ({ status := 500, success := false,
               error := some "Failed to process request", details := some e },
             [.lookup sid, .callFollowUp r.analysis q])
        else
          match su with
          | .ok t =>
            ({ status := 200, success := true, response := some t,
               isFollowUp := some false }, [.lookup sid, .callSummary r.analysis])
          | .fail e =>
            ({ status := 500, success := false,
               error := some "Failed to process request", details := some e },
             [.lookup sid, .callSummary r.analysis])

/-- ASCII lower-casing of one character, the effect of
String.prototype.toLowerCase on the voice strings involved here. -/
def lowerChar (c : Char) : Char :=
  if 65 ≤ c.toNat ∧ c.toNat ≤ 90 then Char.ofNat (c.toNat + 32) else c

/-- String.prototype.toLowerCase (ASCII range). -/
def sToLower (s : String) : String := String.mk (s.data.map lowerChar)

/-- Outbound text-to-speech request payload (model, voice, input) as built
for openai.audio.speech.create. -/
structure TtsRequest where
  model : String
  voice : String
  input : JsonVal

/-- Observable outcome of one POST /api/tts request up to the outbound call:
rejected by the handler before generateSpeech, thrown inside generateSpeech
before the outbound call, or an outbound synthesis call with the given
payload. -/
inductive TtsFlow where
  | rejected (status : Nat) (msg : String) : TtsFlow
  | thrown (msg : String) : TtsFlow
  | outbound (req : TtsRequest) : TtsFlow

/-- Voices enumerated by the validation list of the unused aiService
generateSpeech (src/unnamed/part_000 line 254) and by the doc comments of
both speech functions. -/
def validVoices : List String := ["alloy", "echo", "fable", "onyx", "nova", "shimmer"]

/-- generateSpeech of src/ttsService.js lines 13-32, the one server.js
imports: no voice validation at all; a falsy text throws before the call,
otherwise the outbound call is made with the voice lower-cased. A non-string
voice has no toLowerCase method, so the TypeError is caught and rethrown as
the generic failure, still before any outbound call. -/
def ttsGenerateSpeechFlow (text : JsonVal) (voice : JsonVal) : TtsFlow :=
  if jsTruthy text = false then .thrown "No text provided for TTS"
  else
    match voice with
    | .str s => .outbound ⟨"tts-1", sToLower s, text⟩
    | _ => .thrown "Failed to generate speech"

/-- Pre-call behaviour of the generateSpeech in src/unnamed/part_000 lines
252-265 (NOT the one server.js imports): it throws before any outbound call
unless the voice is in the enumerated list, and performs no case
normalization. -/
def aiServiceSpeechRequest (text : JsonVal) (voice : String) : Option TtsRequest :=
  if validVoices.contains voice then some ⟨"tts-1", voice, text⟩ else none

/-- POST /api/tts handler (src/server.js lines 203-232): destructures
`{text, voice = "alloy"}` (the default applies only when the field is
absent), rejects missing or falsy text with a 400 before calling
generateSpeech, and otherwise runs the imported ttsService generateSpeech. -/
def apiTts (text : Option JsonVal) (voice : Option JsonVal) : TtsFlow :=
  let v := voice.getD (.str "alloy")
  match text with
  | none => .rejected 400 "Text is required"
  | some t =>
    if jsTruthy t = false then .rejected 400 "Text is required"
    else ttsGenerateSpeechFlow t v

/-- Bool test that `sub` occurs as a contiguous sublist of the second list:
used to state that one string contains another. -/
def listContainsSub (sub : List Char) : List Char → Bool
  | [] => sub.isEmpty
  | c :: rest => sub.isPrefixOf (c :: rest) || listContainsSub sub rest

/-- String containment: `strContains s sub` is true exactly when `sub`
occurs contiguously inside `s`. -/
def strContains (s sub : String) : Bool := listContainsSub sub.data s.data

/-- External model reply with a single well-formed choice carrying the given
content string. -/
def modelReply (c : String) : Except String ModelResponse :=
  .ok ⟨[⟨some ⟨some c⟩⟩]⟩

/-- Shape condition on the ingredients field under which the fallback
construction of src/server.js line 104 cannot throw: the field is absent,
null, or an actual array. -/
def ingredientsArrayish (analysis : JsonVal) : Prop :=
  jsGetField analysis "ingredients" = some none ∨
  jsGetField analysis "ingredients" = some (some .null) ∨
  ∃ xs, jsGetField analysis "ingredients" = some (some (.arr xs))

/-- Parse fixture producing a semantic error-flagged analysis for the
marker reply E3. -/
def parseFixE3 : String → Option JsonVal :=
  fun s => if s == "E3" then some (.obj [("isError", .bool true)]) else none

/-- Parse fixture producing a reply whose error field is a truthy string
while isError is false, for the marker reply E5. -/
def parseFixE5 : String → Option JsonVal :=
  fun s =>
    if s == "E5" then
      some (.obj [("error", .str "I could not read the label"), ("isError", .bool false)])
    else none

/-- Parse fixture producing a successful analysis whose ingredients field is
a truthy non-array (a string), for the marker reply C4. -/
def parseFixC4 : String → Option JsonVal :=
  fun s =>
    if s == "C4" then
      some (.obj [("productName", .str "Choco Bar"), ("ingredients", .str "sugar"),
                  ("isError", .bool false), ("error", .str "")])
    else none

/-- Parse fixture producing a well-formed successful analysis, for the
marker reply G4. -/
def parseFixG4 : String → Option JsonVal :=
  fun s =>
    if s == "G4" then
      some (.obj [("productName", .str "Choco Bar"),
                  ("ingredients", .arr [.str "sugar", .str "cocoa"]),
                  ("nutritionFacts", .obj [("calories", .num 200)]),
                  ("isError", .bool false)])
    else none

/-- Parse fixture producing a successful analysis with explicitly falsy
flags, for the marker reply W9. -/
def parseFixW9 : String → Option JsonVal :=
  fun s =>
    if s == "W9" then some (.obj [("isError", .bool false), ("error", .str "")])
    else none

/-- Store fixture holding one session "s" created at time 0. -/
def chatStoreFix : SessionStore := storeAnalysis emptyStore 0 "s" (.obj [])

/-- Data of an appended string is the appended data. -/
theorem sdata_append (a b : String) : (a ++ b).data = a.data ++ b.data := by
  cases a; cases b; rfl

/-- A string whose character list is nonempty is not the empty string. -/
theorem str_ne_empty_of_data (s : String) (h : s.data ≠ []) : s ≠ "" := by
  intro he; subst he; exact h rfl

/-- Appending to a nonempty right part never yields the empty string. -/
theorem append_ne_empty_of_right (x y : String) (hy : y ≠ "") : x ++ y ≠ "" := by
  intro h
  apply hy
  have hd := congrArg String.data h
  rw [sdata_append] at hd
  have hn : y.data = [] := (List.append_eq_nil.mp hd).2
  cases y with
  | mk d => simpa using congrArg String.mk hn

/-- Appending to a nonempty left part never yields the empty string. -/
theorem append_ne_empty_of_left (x y : String) (hx : x ≠ "") : x ++ y ≠ "" := by
  intro h
  apply hx
  have hd := congrArg String.data h
  rw [sdata_append] at hd
  have hn : x.data = [] := (List.append_eq_nil.mp hd).1
  cases x with
  | mk d => simpa using congrArg String.mk hn

/-- A list is a Bool-prefix of itself followed by anything. -/
theorem isPrefixOf_append_self (l r : List Char) : l.isPrefixOf (l ++ r) = true := by
  induction l with
  | nil => simp [List.isPrefixOf]
  | cons c cs ih => simp [List.isPrefixOf, ih]

/-- listContainsSub finds the sublist when it sits at the front. -/
theorem listContainsSub_self (l r : List Char) : listContainsSub l (l ++ r) = true := by
  cases hl : l ++ r with
  | nil =>
    have : l = [] := (List.append_eq_nil.mp hl).1
    subst this
    rfl
  | cons c rest =>
    rw [listContainsSub, ← hl, isPrefixOf_append_self]
    rfl

/-- listContainsSub finds the sublist anywhere. -/
theorem listContainsSub_append (sub pre post : List Char) :
    listContainsSub sub (pre ++ (sub ++ post)) = true := by
  induction pre with
  | nil => simpa using listContainsSub_self sub post
  | cons c cs ih => simp [listContainsSub, ih]

/-- strContains holds whenever the character data has the pattern as a
prefix of some tail position; stated for a front occurrence. -/
theorem strContains_data_prefix (s sub : String) (rest : List Char)
    (h : s.data = sub.data ++ rest) : strContains s sub = true := by
  unfold strContains
  rw [h]
  exact listContainsSub_self _ _

/-- strContains is complete for string-level decompositions: a string equal
to pre ++ sub ++ post contains sub. -/
theorem strContains_of_eq_append (s pre sub post : String)
    (h : s = pre ++ sub ++ post) : strContains s sub = true := by
  unfold strContains
  rw [h, sdata_append, sdata_append, List.append_assoc]
  exact listContainsSub_append _ _ _

/-- Characterization of a read after a create: the freshly stored record is
returned exactly until its fixed expiry instant, computed at creation. -/
theorem store_get_eq (store : SessionStore) (T : Nat) (sid : String)
    (a : JsonVal) (t : Nat) :
    getAnalysis (storeAnalysis store T sid a) t sid =
      if t ≤ T + sessionTTLms then some ⟨a, T⟩ else none := by
  simp [getAnalysis, storeAnalysis, List.lookup]

/-- Lookup misses every id that no create of the trace used. -/
theorem lookup_runCreates (ops : List (String × JsonVal × Nat)) (sid : String)
    (h : sid ∉ ops.map (fun x => x.1)) :
    (runCreates ops).entries.lookup sid = none := by
  induction ops with
  | nil => rfl
  | cons p rest ih =>
    obtain ⟨k, a, t⟩ := p
    simp only [List.map, List.mem_cons, not_or] at h
    have hk : (sid == k) = false := by simpa using h.1
    simp [runCreates, storeAnalysis, List.lookup, hk, ih h.2]

/-- C1: a payload stored via storeAnalysis is returned by an immediate
getAnalysis with the same identifier, as the exact stored record (analysis
plus creation timestamp), the read happening before any expiry. -/
theorem claim_C1_roundtrip (store : SessionStore) (now : Nat) (sid : String)
    (a : JsonVal) :
    getAnalysis (storeAnalysis store now sid a) now sid = some ⟨a, now⟩ := by
  rw [store_get_eq]
  simp

/-- C2: a session created at time T is retrievable at every instant strictly
before T plus the 15 minute TTL and not retrievable at any instant strictly
after it; the final conjunct characterizes every read purely by the creation
time, so the expiry window is fixed at creation and a read (which returns no
updated store in this model, as the cache get touches no ttl) never extends
it. -/
theorem claim_C2_fixed_ttl (store : SessionStore) (T : Nat) (sid : String)
    (a : JsonVal) (t1 t2 : Nat) (h1 : t1 < T + sessionTTLms)
    (h2 : T + sessionTTLms < t2) :
    getAnalysis (storeAnalysis store T sid a) t1 sid = some ⟨a, T⟩ ∧
    getAnalysis (storeAnalysis store T sid a) t2 sid = none ∧
    ∀ t, getAnalysis (storeAnalysis store T sid a) t sid =
      if t ≤ T + sessionTTLms then some ⟨a, T⟩ else none := by
  refine ⟨?_, ?_, fun t => store_get_eq store T sid a t⟩
  · rw [store_get_eq]
    simp [Nat.le_of_lt h1]
  · rw [store_get_eq]
    simp [Nat.not_le_of_lt h2]

/-- C2 witness: concrete boundary instants around a creation at time 0. -/
theorem claim_C2_witness :
    getAnalysis (storeAnalysis emptyStore 0 "s" .null) 900001 "s" = none :=
  (claim_C2_fixed_ttl emptyStore 0 "s" .null 899999 900001 (by decide)
    (by decide)).2.1

/-- C8: an identifier that no create of a whole creation history ever used is
not found by getAnalysis at any time. -/
theorem claim_C8_unknown_id (ops : List (String × JsonVal × Nat)) (t : Nat)
    (sid : String) (h : sid ∉ ops.map (fun x => x.1)) :
    getAnalysis (runCreates ops) t sid = none := by
  simp [getAnalysis, lookup_runCreates ops sid h]

/-- C8 witness: a concrete one-create history and a fresh identifier. -/
theorem claim_C8_witness : getAnalysis (runCreates [("a", .null, 0)]) 3 "b" = none :=
  claim_C8_unknown_id [("a", .null, 0)] 3 "b" (by decide)

/-- C3: when analyzeImage reports a failure (success false), the /api/analyze
handler returns a response with success false and no sessionId, and the
session store is left exactly as it was: no session is created and nothing is
stored. -/
theorem claim_C3_no_session_on_error (parse : String → Option JsonVal)
    (call : Except String ModelResponse) (newId : String) (sr : SummaryResult)
    (now : Nat) (f : UploadedFile) (store : SessionStore) (e : JsonVal)
    (d : String)
    (h : analyzeImage parse call f.imageBase64 f.mimetype = .err e d) :
    (apiAnalyze parse call newId sr now (some f) store).1.success = false ∧
    (apiAnalyze parse call newId sr now (some f) store).1.sessionId = none ∧
    (apiAnalyze parse call newId sr now (some f) store).2 = store := by
  simp [apiAnalyze, h]

/-- C3 witness: a concrete error-flagged reply; the store stays empty. -/
theorem claim_C3_witness :
    (apiAnalyze parseFixE3 (modelReply "E3") "id3" ⟨true, some "sum"⟩ 7
      (some ⟨"img", "image/png"⟩) emptyStore).2 = emptyStore :=
  (claim_C3_no_session_on_error parseFixE3 (modelReply "E3") "id3"
    ⟨true, some "sum"⟩ 7 ⟨"img", "image/png"⟩ emptyStore
    (.str "Failed to analyze the food label")
    "The model could not process the image as a food label" rfl).2.2

/-- C5 counterexample: a reply whose parsed payload carries the semantic
error flag (truthy error field, isError false) is classified as the semantic
failure by analyzeImage, yet the /api/analyze response status is 500 — the
claimed non-500 status for semantic outcomes is false on this code. -/
theorem claim_C5_counterexample :
    analyzeImage parseFixE5 (modelReply "E5") "img" "image/png" =
      .err (.str "I could not read the label")
        "The model could not process the image as a food label" ∧
    (apiAnalyze parseFixE5 (modelReply "E5") "id5" ⟨true, some "sum"⟩ 0
      (some ⟨"img", "image/png"⟩) emptyStore).1.status = 500 :=
  ⟨rfl, rfl⟩

/-- C5 amended: every analyzeImage failure, the semantic error-flagged
outcome included, is surfaced by /api/analyze as a structured failure body
(success false, the error field forwarding the gateway error, details
preserved) with HTTP status 500 — the same status as upstream and transport
failures, with no status distinction between the two kinds. -/
theorem claim_C5_semantic_error_surface (parse : String → Option JsonVal)
    (call : Except String ModelResponse) (newId : String) (sr : SummaryResult)
    (now : Nat) (f : UploadedFile) (store : SessionStore) (e : JsonVal)
    (d : String)
    (h : analyzeImage parse call f.imageBase64 f.mimetype = .err e d) :
    (apiAnalyze parse call newId sr now (some f) store).1.status = 500 ∧
    (apiAnalyze parse call newId sr now (some f) store).1.success = false ∧
    (apiAnalyze parse call newId sr now (some f) store).1.error = some e ∧
    (apiAnalyze parse call newId sr now (some f) store).1.details = some d := by
  simp [apiAnalyze, h]

/-- C5 witness: a transport failure takes the very same 500 path. -/
theorem claim_C5_witness :
    (apiAnalyze (fun _ => none) (.error "network down") "id5b" ⟨true, some "s"⟩
      0 (some ⟨"img", "image/png"⟩) emptyStore).1.status = 500 :=
  (claim_C5_semantic_error_surface (fun _ => none) (.error "network down")
    "id5b" ⟨true, some "s"⟩ 0 ⟨"img", "image/png"⟩ emptyStore
    (.str "Failed to analyze image") "network down" rfl).1

/-- C6: the generateSpeech that server.js actually imports performs no voice
validation: with the unrecognized voice "invalid" the outbound synthesis call
is made, carrying that voice verbatim; an upper-case accepted voice is
silently normalized by toLowerCase; only the unused aiService generateSpeech
rejects the invalid voice before any outbound call, matching the claim. -/
theorem claim_C6_no_voice_validation :
    validVoices.contains "invalid" = false ∧
    apiTts (some (.str "Hello")) (some (.str "invalid")) =
      .outbound ⟨"tts-1", "invalid", .str "Hello"⟩ ∧
    apiTts (some (.str "Hi")) (some (.str "ALLOY")) =
      .outbound ⟨"tts-1", "alloy", .str "Hi"⟩ ∧
    aiServiceSpeechRequest (.str "Hello") "invalid" = none :=
  ⟨by decide, rfl, rfl, rfl⟩

/-- C7: a /api/chat request without the X-Session-ID header is answered with
a 400 validation failure (success false) and performs no session lookup and
no gateway call (its effect list is empty), while a request whose header
carries an identifier that the store does not resolve is answered 404 after
exactly the lookup, with no gateway call. -/
theorem claim_C7_chat_validation (store : SessionStore) (now : Nat)
    (msg ifu : Option JsonVal) (fu su : GatewayResult) :
    ((apiChat store now none msg ifu fu su).1.status = 400 ∧
     (apiChat store now none msg ifu fu su).1.success = false ∧
     (apiChat store now none msg ifu fu su).2 = []) ∧
    (∀ sid, sid ≠ "" → getAnalysis store now sid = none →
      (apiChat store now (some sid) msg ifu fu su).1.status = 404 ∧
      (apiChat store now (some sid) msg ifu fu su).1.success = false ∧
      (apiChat store now (some sid) msg ifu fu su).2 = [.lookup sid]) := by
  refine ⟨⟨rfl, rfl, rfl⟩, fun sid hne hget => ?_⟩
  simp [apiChat, hne, hget]

/-- C7 witness: a concrete unresolved identifier against the empty store. -/
theorem claim_C7_witness :
    (apiChat emptyStore 0 (some "zzz") none none (.ok "a") (.ok "b")).1.status = 404 :=
  ((claim_C7_chat_validation emptyStore 0 none none (.ok "a") (.ok "b")).2
    "zzz" (by decide) rfl).1

/-- Reduction of analyzeImage on a well-formed single-choice reply: with a
nonempty image, a valid MIME type and nonempty content, the result is decided
entirely by the parse of the fence-stripped content and the two flags. -/
theorem analyzeImage_reply_eq (parse : String → Option JsonVal) (b mt c : String)
    (hb : b ≠ "") (hm : sStartsWith mt "image/" = true) (hc : c ≠ "") :
    analyzeImage parse (modelReply c) b mt =
      (match parse (stripFences c) with
       | none => .err (.str "Failed to analyze image") "Failed to parse API response"
       | some v =>
         match jsGetField v "isError", jsGetField v "error" with
         | some ie, some er =>
           if jsTruthyOpt ie || jsTruthyOpt er then
             .err (match er with
                   | some w => if jsTruthy w then w else .str "Failed to analyze the food label"
                   | none => .str "Failed to analyze the food label")
               "The model could not process the image as a food label"
           else .ok v
         | _, _ => .err (.str "Failed to analyze image") "Failed to parse API response") := by
  unfold analyzeImage modelReply
  rw [if_neg hb, if_neg (by simp [hm])]
  show (if c = "" then _ else _) = _
  rw [if_neg hc]

/-- Every successful analyzeImage result carries falsy isError and error
fields, whatever the call outcome was. -/
theorem analyzeImage_ok_flags (parse : String → Option JsonVal)
    (call : Except String ModelResponse) (b mt : String) (a : JsonVal)
    (h : analyzeImage parse call b mt = .ok a) :
    ∃ ie er, jsGetField a "isError" = some ie ∧ jsTruthyOpt ie = false ∧
      jsGetField a "error" = some er ∧ jsTruthyOpt er = false := by
  unfold analyzeImage at h
  repeat' split at h
  all_goals simp_all

/-- C9: analyzeImage succeeds exactly when the reply content, after
code-fence stripping, parses to a value whose isError and error lookups both
exist (the value is not null) and are falsy; consequently a parsed payload
with a truthy error field is classified as the semantic failure even when
isError is false, and every entry the /api/analyze handler ever adds to the
session store has both flags falsy. -/
theorem claim_C9_classification (parse : String → Option JsonVal)
    (b mt c : String) (hb : b ≠ "") (hm : sStartsWith mt "image/" = true)
    (hc : c ≠ "") :
    ((analyzeImage parse (modelReply c) b mt).success = true ↔
      ∃ v ie er, parse (stripFences c) = some v ∧
        jsGetField v "isError" = some ie ∧ jsTruthyOpt ie = false ∧
        jsGetField v "error" = some er ∧ jsTruthyOpt er = false) ∧
    (∀ a, analyzeImage parse (modelReply c) b mt = .ok a →
      ∃ ie er, jsGetField a "isError" = some ie ∧ jsTruthyOpt ie = false ∧
        jsGetField a "error" = some er ∧ jsTruthyOpt er = false) ∧
    (∀ v w, parse (stripFences c) = some v →
      jsGetField v "error" = some (some w) → jsTruthy w = true →
      analyzeImage parse (modelReply c) b mt =
        .err w "The model could not process the image as a food label") ∧
    (∀ call2 newId sr now f store entry,
      entry ∈ ((apiAnalyze parse call2 newId sr now f store).2).entries →
      entry ∈ store.entries ∨
      ∃ ie er, jsGetField entry.2.1.analysis "isError" = some ie ∧
        jsTruthyOpt ie = false ∧
        jsGetField entry.2.1.analysis "error" = some er ∧
        jsTruthyOpt er = false) := by
  refine ⟨?_, ?_, ?_, ?_⟩
  · rw [analyzeImage_reply_eq parse b mt c hb hm hc]
    constructor
    · intro hsucc
      cases hp : parse (stripFences c) with
      | none => simp [hp, AnalyzeResult.success] at hsucc
      | some v =>
        cases h1 : jsGetField v "isError" with
        | none => simp [hp, h1, AnalyzeResult.success] at hsucc
        | some ie =>
          cases h2 : jsGetField v "error" with
          | none => simp [hp, h1, h2, AnalyzeResult.success] at hsucc
          | some er =>
            cases hcond : (jsTruthyOpt ie || jsTruthyOpt er) with
            | true => simp [hp, h1, h2, hcond, AnalyzeResult.success] at hsucc
            | false =>
              have hboth := Bool.or_eq_false_iff.mp hcond
              exact ⟨v, ie, er, rfl, h1, hboth.1, h2, hboth.2⟩
    · rintro ⟨v, ie, er, hp, h1, hie, h2, her⟩
      simp [hp, h1, h2, hie, her, AnalyzeResult.success]
  · intro a ha
    exact analyzeImage_ok_flags parse (modelReply c) b mt a ha
  · intro v w hp h2 hw
    rw [analyzeImage_reply_eq parse b mt c hb hm hc]
    have hie : ∃ ie, jsGetField v "isError" = some ie := by
      cases v <;> simp_all [jsGetField]
    obtain ⟨ie, hie⟩ := hie
    simp [hp, hie, h2, jsTruthyOpt, hw]
  · intro call2 newId sr now f store entry hmem
    cases f with
    | none =>
      left
      simpa [apiAnalyze] using hmem
    | some f2 =>
      cases ha : analyzeImage parse call2 f2.imageBase64 f2.mimetype with
      | err e d =>
        left
        simpa [apiAnalyze, ha] using hmem
      | ok a =>
        simp [apiAnalyze, ha, storeAnalysis] at hmem
        cases hmem with
        | inr hmm => exact Or.inl hmm
        | inl he =>
          right
          subst he
          simpa using analyzeImage_ok_flags parse call2 f2.imageBase64 f2.mimetype a ha

/-- C9 witness: a concrete reply with explicitly falsy flags is accepted. -/
theorem claim_C9_witness :
    (analyzeImage parseFixW9 (modelReply "W9") "img" "image/png").success = true :=
  ((claim_C9_classification parseFixW9 "img" "image/png" "W9" (by decide)
    (by decide) (by decide)).1).mpr
    ⟨.obj [("isError", .bool false), ("error", .str "")], some (.bool false),
     some (.str ""), rfl, rfl, rfl, rfl, rfl⟩

/-- Bool prefix tests survive appending on the right. -/
theorem isPrefixOf_append_right (l m r : List Char) (h : l.isPrefixOf m = true) :
    l.isPrefixOf (m ++ r) = true := by
  induction l generalizing m with
  | nil => simp only [List.isPrefixOf]
  | cons a as ih =>
    cases m with
    | nil => simp [List.isPrefixOf] at h
    | cons b bs =>
      simp only [List.isPrefixOf, List.cons_append, Bool.and_eq_true] at h ⊢
      exact ⟨h.1, ih bs h.2⟩

/-- Empty pattern occurs in every list. -/
theorem listContainsSub_nil : ∀ l : List Char, listContainsSub [] l = true
  | [] => rfl
  | c :: rest => by simp [listContainsSub, List.isPrefixOf]

/-- An occurrence survives appending on the right. -/
theorem listContainsSub_append_right (sub l r : List Char)
    (h : listContainsSub sub l = true) : listContainsSub sub (l ++ r) = true := by
  induction l with
  | nil =>
    have hs : sub = [] := by cases sub <;> simp_all [listContainsSub, List.isEmpty]
    subst hs
    exact listContainsSub_nil r
  | cons c rest ih =>
    rw [listContainsSub] at h
    rw [List.cons_append, listContainsSub]
    cases hpre : sub.isPrefixOf (c :: rest) with
    | true =>
      have hx := isPrefixOf_append_right sub (c :: rest) r hpre
      rw [List.cons_append] at hx
      simp [hx]
    | false =>
      have h2 : listContainsSub sub rest = true := by simp_all
      simp [ih h2]

/-- String containment survives appending on the right. -/
theorem strContains_append_right (s t sub : String)
    (h : strContains s sub = true) : strContains (s ++ t) sub = true := by
  unfold strContains at h ⊢
  rw [sdata_append]
  exact listContainsSub_append_right _ _ _ h

/-- A string contains its own front segment. -/
theorem strContains_left (sub t : String) : strContains (sub ++ t) sub = true :=
  strContains_data_prefix _ _ t.data (sdata_append sub t)

/-- Every string contains itself. -/
theorem strContains_refl (s : String) : strContains s s = true := by
  apply strContains_data_prefix s s []
  simp

/-- Whenever the local fallback construction completes without throwing,
the produced summary is nonempty. -/
theorem fallback_nonempty (analysis : JsonVal) (s : String)
    (h : buildFallback analysis = some s) : s ≠ "" := by
  unfold buildFallback at h
  repeat' split at h
  all_goals try exact Option.noConfusion h
  all_goals
    (cases Option.some.inj h
     repeat' split
     all_goals (apply append_ne_empty_of_right; decide))

/-- When the analysis has a nonempty string productName and its
ingredients field cannot make the join throw, the fallback construction
completes and its summary contains the product name. -/
theorem fallback_product (analysis : JsonVal) (pname : String)
    (h1 : jsGetField analysis "productName" = some (some (.str pname)))
    (hp : pname ≠ "") (h2 : ingredientsArrayish analysis) :
    ∃ s, buildFallback analysis = some s ∧ strContains s pname = true := by
  cases analysis with
  | null => simp [jsGetField] at h1
  | bool b => simp [jsGetField] at h1
  | num n => simp [jsGetField] at h1
  | str s2 => simp [jsGetField] at h1
  | arr xs => simp [jsGetField] at h1
  | obj fields =>
    have h1l : fields.lookup "productName" = some (.str pname) := by
      simpa [jsGetField] using h1
    unfold ingredientsArrayish at h2
    simp only [jsGetField] at h2
    have hpt : jsTruthy (.str pname) = true := by simp [jsTruthy, hp]
    unfold buildFallback
    simp only [jsGetField]
    rw [h1l]
    rcases h2 with h2 | h2 | ⟨xs, h2⟩
    · rw [Option.some.inj h2]
      refine ⟨_, rfl, ?_⟩
      simp only [jsOptJoin, hpt, if_true, jsToString]
      repeat' split
      all_goals ((repeat apply strContains_append_right); exact strContains_refl _)
    · rw [Option.some.inj h2]
      refine ⟨_, rfl, ?_⟩
      simp only [jsOptJoin, hpt, if_true, jsToString]
      repeat' split
      all_goals ((repeat apply strContains_append_right); exact strContains_refl _)
    · rw [Option.some.inj h2]
      refine ⟨_, rfl, ?_⟩
      simp only [jsOptJoin, hpt, if_true, jsToString]
      repeat' split
      all_goals ((repeat apply strContains_append_right); exact strContains_refl _)

/-- C4 counterexample: a successfully analyzed payload whose ingredients
field is the truthy non-array "sugar" makes the fallback construction throw,
so with a failing summarize call the summary delivered is the generic
completion message, which does not contain the present, nonempty productName
"Choco Bar" — refuting the claim as stated. -/
theorem claim_C4_counterexample :
    analyzeImage parseFixC4 (modelReply "C4") "img" "image/jpeg" =
      .ok (.obj [("productName", .str "Choco Bar"), ("ingredients", .str "sugar"),
                 ("isError", .bool false), ("error", .str "")]) ∧
    jsGetField (.obj [("productName", .str "Choco Bar"), ("ingredients", .str "sugar"),
                 ("isError", .bool false), ("error", .str "")]) "productName" =
      some (some (.str "Choco Bar")) ∧
    (apiAnalyze parseFixC4 (modelReply "C4") "id4" ⟨false, none⟩ 0
      (some ⟨"img", "image/jpeg"⟩) emptyStore).1.summary =
      some "Analysis complete. Ask me anything about this product." ∧
    strContains "Analysis complete. Ask me anything about this product." "Choco Bar" = false :=
  ⟨rfl, rfl, rfl, by decide⟩

/-- C4 as amended: when analyzeImage succeeds and the summarize call
fails, /api/analyze still answers success true with status 200, the fresh
session identifier (which resolves in the resulting store to the stored
analysis), and a nonempty summary; and whenever additionally the ingredients
field is absent, null or an array — so the fallback construction cannot
throw — the summary contains the productName whenever that field is a
nonempty string. -/
theorem claim_C4_fallback (parse : String → Option JsonVal)
    (call : Except String ModelResponse) (newId : String) (sr : SummaryResult)
    (now : Nat) (f : UploadedFile) (store : SessionStore) (analysis : JsonVal)
    (hok : analyzeImage parse call f.imageBase64 f.mimetype = .ok analysis)
    (hsr : sr.success = false) :
    (apiAnalyze parse call newId sr now (some f) store).1.success = true ∧
    (apiAnalyze parse call newId sr now (some f) store).1.status = 200 ∧
    (apiAnalyze parse call newId sr now (some f) store).1.sessionId = some newId ∧
    getAnalysis (apiAnalyze parse call newId sr now (some f) store).2 now newId =
      some ⟨analysis, now⟩ ∧
    (∃ s, (apiAnalyze parse call newId sr now (some f) store).1.summary = some s ∧
      s ≠ "") ∧
    (∀ pname, jsGetField analysis "productName" = some (some (.str pname)) →
      pname ≠ "" → ingredientsArrayish analysis →
      ∃ s, (apiAnalyze parse call newId sr now (some f) store).1.summary = some s ∧
        strContains s pname = true) := by
  refine ⟨?_, ?_, ?_, ?_, ?_, ?_⟩
  · simp [apiAnalyze, hok]
  · simp [apiAnalyze, hok]
  · simp [apiAnalyze, hok]
  · simp only [apiAnalyze, hok]
    rw [store_get_eq]
    simp
  · simp only [apiAnalyze, hok, hsr, Bool.false_and, Bool.false_eq_true, if_false]
    cases hb : buildFallback analysis with
    | none => exact ⟨"Analysis complete. Ask me anything about this product.", by simp [hb], by decide⟩
    | some s0 => exact ⟨s0, by simp [hb], fallback_nonempty analysis s0 hb⟩
  · intro pname h1 hp h2
    obtain ⟨s0, hs0, hcont⟩ := fallback_product analysis pname h1 hp h2
    refine ⟨s0, ?_, hcont⟩
    simp only [apiAnalyze, hok, hsr, Bool.false_and, Bool.false_eq_true, if_false]
    simp [hs0]

/-- C4 witness: a concrete well-formed analysis with a failing summarize
call still yields a success response. -/
theorem claim_C4_witness :
    (apiAnalyze parseFixG4 (modelReply "G4") "sid1" ⟨false, none⟩ 0
      (some ⟨"b64", "image/jpeg"⟩) emptyStore).1.success = true :=
  (claim_C4_fallback parseFixG4 (modelReply "G4") "sid1" ⟨false, none⟩ 0
    ⟨"b64", "image/jpeg"⟩ emptyStore
    (.obj [("productName", .str "Choco Bar"),
           ("ingredients", .arr [.str "sugar", .str "cocoa"]),
           ("nutritionFacts", .obj [("calories", .num 200)]),
           ("isError", .bool false)]) rfl rfl).1

/-- C10 counterexample: with a valid session, isFollowUp true and no
message, the request is dispatched to the summary branch, but when the
summary gateway call fails the 500 response carries no isFollowUp field at
all — refuting the unconditional isFollowUp:false conjunct of the claim. -/
theorem claim_C10_counterexample :
    getAnalysis chatStoreFix 0 "s" = some ⟨.obj [], 0⟩ ∧
    (apiChat chatStoreFix 0 (some "s") none (some (.bool true)) (.ok "x")
      (.fail "boom")).2 = [.lookup "s", .callSummary (.obj [])] ∧
    (apiChat chatStoreFix 0 (some "s") none (some (.bool true)) (.ok "x")
      (.fail "boom")).1.status = 500 ∧
    (apiChat chatStoreFix 0 (some "s") none (some (.bool true)) (.ok "x")
      (.fail "boom")).1.isFollowUp = none :=
  ⟨rfl, rfl, rfl, rfl⟩

/-- C10 as amended: with a valid session, truthy isFollowUp and a missing
or empty message, the request is handled as a plain summary request —
handleFollowUp is never invoked, generateSummary is invoked instead — and
when the summary gateway call succeeds the response carries isFollowUp
false; moreover (final conjunct, over every /api/chat request whatsoever)
the follow-up branch runs only when isFollowUp is truthy and the message is
non-empty: any request whose effects include a handleFollowUp call had a
truthy isFollowUp and a truthy message, non-empty whenever it is a string. -/
theorem claim_C10_summary_branch (store : SessionStore) (now : Nat)
    (sid : String) (msg ifu : Option JsonVal) (fu su : GatewayResult)
    (r : SessionRecord) (hsid : sid ≠ "")
    (hget : getAnalysis store now sid = some r)
    (hifu : jsTruthy (ifu.getD (.bool false)) = true)
    (hmsg : msg = none ∨ msg = some (.str "")) :
    ((apiChat store now (some sid) msg ifu fu su).2 =
      [.lookup sid, .callSummary r.analysis]) ∧
    (∀ a q, ChatEffect.callFollowUp a q ∉ (apiChat store now (some sid) msg ifu fu su).2) ∧
    (∀ t, su = .ok t →
      (apiChat store now (some sid) msg ifu fu su).1.isFollowUp = some false ∧
      (apiChat store now (some sid) msg ifu fu su).1.response = some t ∧
      (apiChat store now (some sid) msg ifu fu su).1.success = true) ∧
    (∀ (header : Option String) (msg2 ifu2 : Option JsonVal)
      (fu2 su2 : GatewayResult) (a q : JsonVal),
      ChatEffect.callFollowUp a q ∈ (apiChat store now header msg2 ifu2 fu2 su2).2 →
      jsTruthy (ifu2.getD (.bool false)) = true ∧ jsTruthyOpt msg2 = true ∧
      ∀ str2, msg2 = some (.str str2) → str2 ≠ "") := by
  have hmt : jsTruthyOpt msg = false := by
    rcases hmsg with h | h <;> subst h <;> rfl
  refine ⟨?_, ?_, ?_, ?_⟩
  · simp [apiChat, hsid, hget, hmt]
    cases su <;> rfl
  · intro a q
    simp [apiChat, hsid, hget, hmt]
    cases su <;> simp
  · intro t hsu
    subst hsu
    simp [apiChat, hsid, hget, hmt]
  · intro header msg2 ifu2 fu2 su2 a q hmem
    cases header with
    | none => simp [apiChat] at hmem
    | some sid2 =>
      by_cases hs2 : sid2 = ""
      · simp [apiChat, hs2] at hmem
      · cases hg2 : getAnalysis store now sid2 with
        | none => simp [apiChat, hs2, hg2] at hmem
        | some r2 =>
          cases hcond : (jsTruthy (ifu2.getD (.bool false)) && jsTruthyOpt msg2) with
          | false =>
            cases su2 <;> simp [apiChat, hs2, hg2, hcond] at hmem
          | true =>
            have hb := Bool.and_eq_true_iff.mp hcond
            refine ⟨hb.1, hb.2, ?_⟩
            intro str2 hstr
            subst hstr
            simpa [jsTruthyOpt, jsTruthy] using hb.2

/-- C10 witness: concrete summary-branch dispatch with isFollowUp true
and no message. -/
theorem claim_C10_witness :
    (apiChat chatStoreFix 0 (some "s") none (some (.bool true)) (.fail "nope")
      (.ok "sum")).1.isFollowUp = some false :=
  ((claim_C10_summary_branch chatStoreFix 0 "s" none (some (.bool true))
    (.fail "nope") (.ok "sum") ⟨.obj [], 0⟩ (by decide) rfl rfl
    (Or.inl rfl)).2.2.1 "sum" rfl).1
